import Mathlib

/-!
Shallow embedding of `heyatyar_streamlit_app.py` (employee manager with an
AI natural-language-to-SQL bridge), together with proofs about the claims of
the specification.  Python machine-level collaborators (the `litellm`
completion call, the sqlite3 store) are abstracted as oracles/maps passed in
explicitly; everything observable (messages, attempt counts, backoff sleeps,
executed SQL, connection release) is reified in the return values.
-/

/-- Outcome of one underlying `completion(...)` call (line 155):
either it returns a response whose content is `text`, raises
`RateLimitError` (carrying `str(e)`), or raises any other exception. -/
inductive CallResult where
  | success (text : String)
  | rateLimited (detail : String)
  | fatal (detail : String)
deriving Repr, DecidableEq

/-- Observable outcome of `get_llm_response`: the returned string, the total
number of `completion` calls performed, and the list of back-off sleeps
(`time.sleep(delay)` arguments) in order. -/
structure LlmOutcome where
  result : String
  attempts : Nat
  sleeps : List Int
deriving Repr, DecidableEq

/-- The `while retries < max_retries` loop of `get_llm_response`
(lines 150-173).  `oracle n` is the result of the `n`-th `completion` call
(0-based); `calls` counts calls already made and `sleeps` accumulates the
back-off sleeps already performed.  Mirrors the source: on success return the
content; on `RateLimitError` increment `retries`, and if budget remains sleep
`delay`, double it and loop, else return the multiple-retries error string;
on any other exception return the fatal error string; if the loop condition
fails, return the fall-through string of line 173. -/
def llmLoop (oracle : Nat → CallResult) (maxRetries retries delay : Int)
    (calls : Nat) (sleeps : List Int) : LlmOutcome :=
  if _h : retries < maxRetries then
    match oracle calls with
    | CallResult.success text => ⟨text, calls + 1, sleeps⟩
    | CallResult.rateLimited e =>
        if h2 : retries + 1 < maxRetries then
          llmLoop oracle maxRetries (retries + 1) (delay * 2) (calls + 1) (sleeps ++ [delay])
        else
          ⟨"Error: Could not get response from LLM after multiple retries. Details: " ++ e,
            calls + 1, sleeps⟩
    | CallResult.fatal e =>
        ⟨"Error: Could not get response from LLM. Details: " ++ e, calls + 1, sleeps⟩
  else
    ⟨"Error: Failed to get LLM response.", calls, sleeps⟩
termination_by (maxRetries - retries).toNat
decreasing_by
  simp_wf
  omega

/-- `get_llm_response(question, system_prompt, max_retries=10, initial_delay=2)`
(lines 141-173).  The question and system prompt only feed the `messages`
passed to `completion`, which is abstracted by `oracle`; the retry state
starts at `retries = 0`, `delay = initial_delay`. -/
def get_llm_response (oracle : Nat → CallResult) (max_retries initial_delay : Int) :
    LlmOutcome :=
  llmLoop oracle max_retries 0 initial_delay 0 []

/-- The back-off sleeps performed by `k` consecutive rate-limited attempts
starting from delay `delay`: `[delay, delay*2, delay*4, ...]`. -/
def geomDelays (delay : Int) : Nat → List Int
  | 0 => []
  | k + 1 => delay :: geomDelays (delay * 2) (k + 1 - 1)

/-- An underlying model call that raises `RateLimitError` for the first `k`
calls and then succeeds with `text`. -/
def rlOracle (k : Nat) (d text : String) : Nat → CallResult :=
  fun n => if n < k then CallResult.rateLimited d else CallResult.success text

/-- Python whitespace, as tested by `str.strip()` and the regex class `\s`
(ASCII range; the strings under verification are ASCII). -/
def isPySpace (c : Char) : Bool :=
  c = ' ' || c = '\t' || c = '\n' || c = '\r' || c.toNat = 11 || c.toNat = 12

/-- `str.strip()` on a character list: drop leading and trailing whitespace. -/
def pyStripL (l : List Char) : List Char :=
  ((l.dropWhile isPySpace).reverse.dropWhile isPySpace).reverse

/-- `s.strip()` on a string. -/
def pyStripS (s : String) : String := String.mk (pyStripL s.toList)

/-- `needle` begins `hay` (list form of `str.startswith`). -/
def startsWithL : List Char → List Char → Bool
  | [], _ => true
  | _ :: _, [] => false
  | n :: ns, h :: hs => n == h && startsWithL ns hs

/-- Python substring containment `needle in hay`, on character lists. -/
def containsSubL (needle : List Char) : List Char → Bool
  | [] => startsWithL needle []
  | h :: t => startsWithL needle (h :: t) || containsSubL needle t

/-- Python substring containment `needle in hay`, on strings. -/
def containsSubS (needle hay : String) : Bool :=
  containsSubL needle.toList hay.toList

/-- `s.lower()` (`Char.toLower` lowers exactly the ASCII letters A-Z,
matching Python on the ASCII statements involved). -/
def lowerS (s : String) : String := String.mk (s.toList.map Char.toLower)

/-- `s.startswith(p)` on strings. -/
def startsWithStr (p s : String) : Bool := startsWithL p.toList s.toList

/-- The backtick character. -/
def btk : Char := Char.ofNat 96

/-- The three-backtick marker. -/
def tks : List Char := [btk, btk, btk]

/-- `l` starts with the three-backtick marker. -/
def tripleHere (l : List Char) : Bool := startsWithL tks l

/-- `l` starts with the letters `sql`, each letter case-insensitive
(effect of `re.IGNORECASE` on the literal `sql` of the pattern). -/
def sqlTagHere (l : List Char) : Bool :=
  match l with
  | c1 :: c2 :: c3 :: _ =>
      (c1 == 's' || c1 == 'S') && (c2 == 'q' || c2 == 'Q') && (c3 == 'l' || c3 == 'L')
  | _ => false

/-- `l` starts with the opening marker of the pattern of line 291:
three backticks immediately followed by the (case-insensitive) `sql` tag. -/
def fenceHere (l : List Char) : Bool := startsWithL tks l && sqlTagHere (l.drop 3)

/-- Scan for the leftmost occurrence of the opening marker; on a hit return
the characters after its six characters. -/
def findFence : List Char → Option (List Char)
  | [] => none
  | c :: t => if fenceHere (c :: t) then some ((c :: t).drop 6) else findFence t

/-- The characters strictly before the first three-backtick marker of `l`,
or `none` when `l` has no such marker. -/
def takeToClose : List Char → Option (List Char)
  | [] => none
  | c :: t => if tripleHere (c :: t) then some [] else (takeToClose t).map (fun r => c :: r)

/-- Lines 291-296: `re.search` of the pattern `(three backticks)sql` +
`\s*(.*?)\s*` + `(three backticks)` with `re.DOTALL | re.IGNORECASE` over the
model text, returning the stripped group 1 on a match and the stripped whole
text otherwise.  For this anchored-literal pattern, Python's leftmost-match /
lazy-group semantics reduce to: the match starts at the first occurrence of
the opening marker, the closing marker is the first three-backtick occurrence
after it, and the greedy `\s*` pair strips whitespace from both ends of the
group (the subsequent `.strip()` of line 293 is then a no-op, composed here
anyway).  When the first opening marker has no later three-backtick
occurrence, no later opening marker can exist either (the marker cannot
overlap itself and any later opening marker contains a closing one), so the
search fails and the whole-text fallback of line 296 applies. -/
def extractSql (s : String) : String :=
  match findFence s.toList with
  | some rest =>
      match takeToClose rest with
      | some inner => String.mk (pyStripL inner)
      | none => String.mk (pyStripL s.toList)
  | none => String.mk (pyStripL s.toList)

/-- A scalar cell value as returned by sqlite's `fetchall` (numeric values
modeled as integers: none of the claims under verification depends on
floating-point content). -/
inductive Val where
  | intV (n : Int)
  | strV (s : String)
deriving Repr, DecidableEq

/-- Python `repr` of a cell value, as used by `str(data)` on the fetched
rows (line 308).  String values are modeled without escape processing: the
marker substring at issue contains no quote or backslash characters, so
containment is unaffected. -/
def pyReprVal : Val → String
  | Val.intV n => toString n
  | Val.strV s => "'" ++ s ++ "'"

/-- `", ".join(parts)`. -/
def commaJoin : List String → String
  | [] => ""
  | [x] => x
  | x :: y :: t => x ++ ", " ++ commaJoin (y :: t)

/-- Python `repr` of one fetched row (a tuple; a 1-tuple prints a trailing
comma). -/
def pyReprRow (r : List Val) : String :=
  match r with
  | [v] => "(" ++ pyReprVal v ++ ",)"
  | _ => "(" ++ commaJoin (r.map pyReprVal) ++ ")"

/-- Python `str(data)` for a fetched row list. -/
def pyReprRows (rs : List (List Val)) : String :=
  "[" ++ commaJoin (rs.map pyReprRow) ++ "]"

/-- The canonical EMPLOYEE headers of line 318. -/
def canonicalColumns : List String :=
  ["ID", "NAME", "SALARY", "AGE", "GENDER", "DESIGNATION", "WORKING_HOURS",
   "MONTHLY_LUNCH_BILL", "BONUS"]

/-- The synthesized positional headers of line 325, sized to `n`. -/
def synthHeaders (n : Nat) : List String :=
  (List.range n).map (fun i => "Column_" ++ toString (i + 1))

/-- A display-ready result: the "no data" info of line 333, the scalar
success of line 315, or a dataframe with headers. -/
inductive Presentable where
  | noData
  | scalar (v : Val)
  | table (headers : List String) (rows : List (List Val))
deriving Repr, DecidableEq

/-- What the shaping branch does: either a presentable, or the `ValueError`
that `pd.DataFrame(data, columns=...)` raises when the passed column names do
not fit the data width (carrying the two counts of the pandas message
`"<ncols> columns passed, passed data had <width> columns"`).  Nothing in
the source catches it: the surrounding `try` of line 188 has only a
`finally`, so it escapes the handler and crashes the script run. -/
inductive ShapeOutcome where
  | shaped (p : Presentable)
  | raisedValueError (ncols width : Nat)
deriving Repr, DecidableEq

/-- The result-shaping branch of lines 312-333: empty rows give the
"no data" marker (`if data:` fails); exactly one row of one value gives the
scalar display; otherwise a `select * from employee` prefix (on the lowered
statement) selects the canonical 9 headers — raising the pandas
`ValueError` of line 321 when the rows are not 9 wide — else headers
`Column_i` are synthesized from the first row's width.  Fetched row sets are
uniform-width (one value per selected column in every row), so the pandas
column/width check is the test against the first row; on the synthesized
branch the headers are sized to that same row, so that branch cannot raise.
(The `isinstance(data[0], tuple)` test of line 322 always holds for fetched
rows.) -/
def shapeResult (data : List (List Val)) (sql : String) : ShapeOutcome :=
  match data with
  | [] => ShapeOutcome.shaped Presentable.noData
  | [[v]] => ShapeOutcome.shaped (Presentable.scalar v)
  | first :: rest =>
      if startsWithStr "select * from employee" (lowerS sql) then
        if first.length = canonicalColumns.length then
          ShapeOutcome.shaped (Presentable.table canonicalColumns (first :: rest))
        else
          ShapeOutcome.raisedValueError canonicalColumns.length first.length
      else
        ShapeOutcome.shaped (Presentable.table (synthHeaders first.length) (first :: rest))

/-- Outcome of running one statement against the sqlite store (the
`cur.execute` / `fetchall` / `conn.commit` block): either the fetched rows,
or a raised `sqlite3.Error` carrying `str(e)`. -/
inductive StoreStep where
  | ok (rows : List (List Val))
  | sqliteError (e : String)
deriving Repr, DecidableEq

/-- Value of the Python variable `data` after line 306: either the fetched
row list or the error string built on line 119. -/
inductive ExecData where
  | rows (rs : List (List Val))
  | errorStr (m : String)
deriving Repr, DecidableEq

/-- Observable outcome of `execute_sql_query`: its return value plus whether
the connection was closed on the taken exit path. -/
structure SqlExecOutcome where
  data : ExecData
  connClosed : Bool
deriving Repr, DecidableEq

/-- The `try`/`except sqlite3.Error`/`finally` block of lines 113-121,
once a connection onto `store` is open: the `try` returns the fetched rows
after committing; the `except` arm returns the message string of line 119;
the `finally` closes the connection on both exit paths. -/
def runQueryOnConn (sql : String) (store : String → StoreStep) : SqlExecOutcome :=
  match store sql with
  | StoreStep.ok rows => ⟨ExecData.rows rows, true⟩
  | StoreStep.sqliteError e => ⟨ExecData.errorStr ("Error executing SQL query: " ++ e), true⟩

/-- Effect of `sqlite3.connect(db)` (line 111) on a database path: the path
either opens onto a store, or the call raises `sqlite3.Error` (for example
when the path lies in a nonexistent directory). -/
inductive ConnectResult where
  | conn (store : String → StoreStep)
  | connectError (e : String)

/-- Full observable outcome of `execute_sql_query(sql, db)`: either the
function returns (rows or the line-119 error string, with the connection
closed), or the exception raised by the connect step escaped the function —
lines 111-112 sit outside the `try`/`finally`, so nothing catches it and no
connection exists to close. -/
inductive SqlExecResult where
  | returned (out : SqlExecOutcome)
  | raisedPastBoundary (e : String)
deriving Repr, DecidableEq

/-- `execute_sql_query(sql, db)` (lines 109-121), connect step included:
`conn = sqlite3.connect(db)` and `cur = conn.cursor()` run before the `try`,
so a failing connect raises past the function's boundary; only after a
successful connect does the guarded block of lines 113-121 run. -/
def execute_sql_query (sql : String) (db : ConnectResult) : SqlExecResult :=
  match db with
  | ConnectResult.conn store => SqlExecResult.returned (runQueryOnConn sql store)
  | ConnectResult.connectError e => SqlExecResult.raisedPastBoundary e

/-- The substring tested on line 298 against the extracted candidate. -/
def sentinelMarker : String := "Error: Could not get response from LLM"

/-- The substring tested on line 308 against `str(data)`. -/
def execErrorMarker : String := "Error executing SQL query"

/-- The statement-type gate of lines 300-303:
`sql.lower().startswith(...)` for the four keywords. -/
def validStart (sql : String) : Bool :=
  startsWithStr "select" (lowerS sql) || startsWithStr "insert" (lowerS sql) ||
  startsWithStr "update" (lowerS sql) || startsWithStr "delete" (lowerS sql)

/-- The user-visible outcome of the ask-AI flow: the empty-question warning
(line 335), the upstream-failure error (line 299), the refine-your-question
warning (line 304), the SQL-error display (line 309), or a shaped answer. -/
inductive HandlerResult where
  | warnNoQuestion
  | upstreamError (msg : String)
  | warnInvalidStatement
  | execErrorShown (msg : String)
  | answer (p : Presentable)
  | uncaughtValueError (ncols width : Nat)
deriving Repr, DecidableEq

/-- One run of the ask-AI handler: its outcome, whether `get_llm_response`
was invoked, and the statement passed to `execute_sql_query` (if any). -/
structure HandlerRun where
  result : HandlerResult
  llmCalled : Bool
  executedSql : Option String
deriving Repr, DecidableEq

/-- Python `str(data)` where `data` is either the row list or the error
string returned by `execute_sql_query` (`str` is the identity on strings). -/
def dataStr : ExecData → String
  | ExecData.errorStr m => m
  | ExecData.rows rs => pyReprRows rs

/-- The ask-AI form handler (lines 286-335), for a submitted form.  The
`if ask_ai_button and ai_question:` test admits exactly the non-empty
question strings (Python truthiness); the handler then always calls
`get_llm_response`, whose returned text is `llmText` here.  After extraction,
line 298 tests the upstream-failure marker on the candidate, lines 300-304
gate on the statement type, and only then is `execute_sql_query` invoked —
`store` is the store behind the `"company.db"` path of line 306, on a run
where that path opens (a failing connect there would instead raise out of
`execute_sql_query`, see `ConnectResult`); line 308 tests `str(data)` for
the execution-error marker before shaping, and a pandas `ValueError` from
the shaping branch escapes uncaught.  The `match` arm for an unmarked error
string is unreachable for the outputs of `runQueryOnConn`, whose error
strings always carry the marker (`execError_contains_marker` below). -/
def runHandler (question llmText : String) (store : String → StoreStep) : HandlerRun :=
  if question = "" then ⟨HandlerResult.warnNoQuestion, false, none⟩
  else
    let sql := extractSql llmText
    if containsSubS sentinelMarker sql then ⟨HandlerResult.upstreamError sql, true, none⟩
    else if validStart sql = false then ⟨HandlerResult.warnInvalidStatement, true, none⟩
    else
      let data := (runQueryOnConn sql store).data
      if containsSubS execErrorMarker (dataStr data) then
        ⟨HandlerResult.execErrorShown (dataStr data), true, some sql⟩
      else
        match data with
        | ExecData.rows rs =>
            match shapeResult rs sql with
            | ShapeOutcome.shaped p => ⟨HandlerResult.answer p, true, some sql⟩
            | ShapeOutcome.raisedValueError n w =>
                ⟨HandlerResult.uncaughtValueError n w, true, some sql⟩
        | ExecData.errorStr m => ⟨HandlerResult.execErrorShown m, true, some sql⟩

/-- One row of the EMPLOYEE table (REAL columns modeled as integers: the
claims under verification do not depend on their numeric content). -/
structure EmployeeRow where
  id : Int
  name : String
  salary : Int
  age : Int
  gender : String
  designation : String
  workingHours : Int
  monthlyLunchBill : Int
  bonus : Int
deriving Repr, DecidableEq

/-- What `delete_employee` reports: `success` (returns `True`), `notFound`
(returns `False` after the `st.warning` of lines 77-79), `badArgs` (returns
`False` after the `st.error` of line 66), or `storeError` (returns `False`
after the `st.error` of line 82; not produced by the healthy-store model
below, present because the source can produce it on a `sqlite3.Error`). -/
inductive DeleteReport where
  | success
  | notFound (warning : String)
  | badArgs (error : String)
  | storeError (error : String)
deriving Repr, DecidableEq

/-- `delete_employee(conn, employee_id, employee_name)` (lines 53-83) over a
healthy store holding `table`.  The `DELETE ... WHERE` statement removes the
matching rows; `cur.rowcount` is the number removed; a zero rowcount emits
the not-found warning naming the identifier used. -/
def delete_employee (table : List EmployeeRow) (employee_id : Option Int)
    (employee_name : Option String) : List EmployeeRow × DeleteReport :=
  match employee_id, employee_name with
  | some i, _ =>
      let remaining := table.filter (fun r => !(r.id == i))
      if (table.filter (fun r => r.id == i)).length > 0 then (remaining, DeleteReport.success)
      else (remaining, DeleteReport.notFound ("No employee found with ID '" ++ toString i ++ "'."))
  | none, some nm =>
      let remaining := table.filter (fun r => !(r.name == nm))
      if (table.filter (fun r => r.name == nm)).length > 0 then (remaining, DeleteReport.success)
      else (remaining, DeleteReport.notFound ("No employee found with Name '" ++ nm ++ "'."))
  | none, none =>
      (table, DeleteReport.badArgs "Please provide either an Employee ID or a Name to delete.")

/-- A store holding no rows: every statement fetches the empty row list. -/
def emptyStore : String → StoreStep := fun _ => StoreStep.ok []

/-- A store whose single fetched cell happens to contain the
execution-error marker substring. -/
def markerRowStore : String → StoreStep :=
  fun _ => StoreStep.ok [[Val.strV "Error executing SQL query: x"]]

/-- A store answering every statement with one 18-wide row, as a self-join
of the 9-column EMPLOYEE table fetches. -/
def joinStore : String → StoreStep :=
  fun _ => StoreStep.ok [(List.range 18).map (fun i => Val.intV (i : Int))]

theorem geomDelays_zero (delay : Int) : geomDelays delay 0 = [] := rfl

theorem geomDelays_succ (delay : Int) (k : Nat) :
    geomDelays delay (k + 1) = delay :: geomDelays (delay * 2) k := rfl

theorem geomDelays_two_pow (n : Nat) :
    ∀ m : Nat, geomDelays (2 ^ (m + 1)) n = (List.range n).map (fun i => 2 ^ (m + 1 + i)) := by
  induction n with
  | zero => intro m; simp [geomDelays]
  | succ n ih =>
      intro m
      have h2 : (2 : Int) ^ (m + 1) * 2 = 2 ^ (m + 1 + 1) := by ring
      have htail : (List.range n).map (fun i => (2 : Int) ^ (m + 1 + 1 + i))
          = (List.range n).map (fun i => (2 : Int) ^ (m + 1 + (i + 1))) := by
        apply List.map_congr_left
        intro a _
        congr 1
        omega
      have hr : (List.range (n + 1)).map (fun i => (2 : Int) ^ (m + 1 + i))
          = 2 ^ (m + 1) :: (List.range n).map (fun i => (2 : Int) ^ (m + 1 + (i + 1))) := by
        rw [List.range_succ_eq_map]
        simp [List.map_map, Function.comp_def, Nat.succ_eq_add_one]
      rw [geomDelays_succ, h2, ih (m + 1), htail, hr]

theorem geomDelays_two (n : Nat) :
    geomDelays 2 n = (List.range n).map (fun i => 2 ^ (i + 1)) := by
  have h := geomDelays_two_pow n 0
  simp only [Nat.zero_add, pow_one] at h
  rw [h]
  apply List.map_congr_left
  intro a _
  congr 1
  omega

theorem llmLoop_success (k : Nat) :
    ∀ (oracle : Nat → CallResult) (maxRetries retries delay : Int) (calls : Nat)
      (sleeps : List Int) (d text : String),
      retries + k < maxRetries →
      (∀ i, i < k → oracle (calls + i) = CallResult.rateLimited d) →
      oracle (calls + k) = CallResult.success text →
      llmLoop oracle maxRetries retries delay calls sleeps =
        ⟨text, calls + k + 1, sleeps ++ geomDelays delay k⟩ := by
  induction k with
  | zero =>
      intro oracle maxRetries retries delay calls sleeps d text hbudget _hrl hsucc
      rw [llmLoop]
      rw [dif_pos (by omega : retries < maxRetries)]
      simp only [Nat.add_zero] at hsucc
      simp only [hsucc]
      simp [geomDelays]
  | succ k ih =>
      intro oracle maxRetries retries delay calls sleeps d text hbudget hrl hsucc
      rw [llmLoop]
      rw [dif_pos (by omega : retries < maxRetries)]
      have h0 : oracle calls = CallResult.rateLimited d := by
        have := hrl 0 (by omega)
        simpa using this
      simp only [h0]
      rw [dif_pos (by omega : retries + 1 < maxRetries)]
      rw [ih oracle maxRetries (retries + 1) (delay * 2) (calls + 1) (sleeps ++ [delay]) d text
        (by omega)
        (fun i hi => by
          have := hrl (i + 1) (by omega)
          have harg : calls + 1 + i = calls + (i + 1) := by omega
          rw [harg]
          exact this)
        (by
          have harg : calls + 1 + k = calls + (k + 1) := by omega
          rw [harg]
          exact hsucc)]
      rw [geomDelays_succ]
      have hatt : calls + 1 + k + 1 = calls + (k + 1) + 1 := by omega
      rw [hatt]
      simp [List.append_assoc]

theorem llmLoop_exhaust (b : Nat) :
    ∀ (oracle : Nat → CallResult) (retries delay : Int) (calls : Nat)
      (sleeps : List Int) (d : String),
      (∀ i, i < b + 1 → oracle (calls + i) = CallResult.rateLimited d) →
      llmLoop oracle (retries + (b + 1 : Nat)) retries delay calls sleeps =
        ⟨"Error: Could not get response from LLM after multiple retries. Details: " ++ d,
          calls + b + 1, sleeps ++ geomDelays delay b⟩ := by
  induction b with
  | zero =>
      intro oracle retries delay calls sleeps d hrl
      rw [llmLoop]
      rw [dif_pos (by omega : retries < retries + ((0 : Nat) + 1 : Nat))]
      have h0 : oracle calls = CallResult.rateLimited d := by
        have := hrl 0 (by omega)
        simpa using this
      simp only [h0]
      rw [dif_neg (by omega : ¬retries + 1 < retries + ((0 : Nat) + 1 : Nat))]
      simp [geomDelays]
  | succ b ih =>
      intro oracle retries delay calls sleeps d hrl
      rw [llmLoop]
      rw [dif_pos (by omega : retries < retries + (b + 1 + 1 : Nat))]
      have h0 : oracle calls = CallResult.rateLimited d := by
        have := hrl 0 (by omega)
        simpa using this
      simp only [h0]
      rw [dif_pos (by omega : retries + 1 < retries + (b + 1 + 1 : Nat))]
      have hmr : retries + ((b + 1 + 1 : Nat) : Int) = (retries + 1) + ((b + 1 : Nat) : Int) := by
        push_cast
        ring
      rw [hmr]
      rw [ih oracle (retries + 1) (delay * 2) (calls + 1) (sleeps ++ [delay]) d
        (fun i hi => by
          have := hrl (i + 1) (by omega)
          have harg : calls + 1 + i = calls + (i + 1) := by omega
          rw [harg]
          exact this)]
      rw [geomDelays_succ]
      have hatt : calls + 1 + b + 1 = calls + (b + 1) + 1 := by omega
      rw [hatt]
      simp [List.append_assoc]

/-- Claim C2: with the default policy `max_retries = 10`, `initial_delay = 2`
(line 141), if the underlying completion call raises `RateLimitError` exactly
`k` times and then succeeds, then for `k < 10` `get_llm_response` returns the
model text after exactly `k + 1` total call attempts, sleeping between
attempts with delays `2, 4, 8, ..., 2^k`; for `k ≥ 10` it returns the
exhausted-retries sentinel after exactly 10 call attempts, with the 9 sleeps
`2, 4, ..., 2^9` and no sleep after the final attempt. -/
theorem retry_policy_spec (k : Nat) (d text : String) :
    (k < 10 →
      get_llm_response (rlOracle k d text) 10 2 =
        ⟨text, k + 1, (List.range k).map (fun i => 2 ^ (i + 1))⟩) ∧
    (10 ≤ k →
      get_llm_response (rlOracle k d text) 10 2 =
        ⟨"Error: Could not get response from LLM after multiple retries. Details: " ++ d,
          10, (List.range 9).map (fun i => 2 ^ (i + 1))⟩) := by
  constructor
  · intro hk
    rw [get_llm_response]
    have h := llmLoop_success k (rlOracle k d text) 10 0 2 0 [] d text
      (by omega)
      (fun i hi => by simp [rlOracle, hi])
      (by simp [rlOracle])
    rw [h, geomDelays_two]
    simp
  · intro hk
    rw [get_llm_response]
    have h := llmLoop_exhaust 9 (rlOracle k d text) 0 2 0 [] d
      (fun i hi => by
        have hik : i < k := by omega
        simp [rlOracle, hik])
    norm_num at h
    rw [h, geomDelays_two]

/-- Witness for `retry_policy_spec`: three rate limits then success, and
twelve rate limits (exhaustion), at concrete inputs. -/
theorem retry_policy_spec_witness :
    get_llm_response (rlOracle 3 "rl" "SELECT 1") 10 2 =
      ⟨"SELECT 1", 3 + 1, (List.range 3).map (fun i => 2 ^ (i + 1))⟩ ∧
    get_llm_response (rlOracle 12 "rl" "SELECT 1") 10 2 =
      ⟨"Error: Could not get response from LLM after multiple retries. Details: rl",
        10, (List.range 9).map (fun i => 2 ^ (i + 1))⟩ :=
  ⟨(retry_policy_spec 3 "rl" "SELECT 1").1 (by decide),
   (retry_policy_spec 12 "rl" "SELECT 1").2 (by decide)⟩

/-- Claim C8: whenever the underlying completion call raises a non-rate-limit
exception (lines 170-172), the retry loop of `get_llm_response` terminates
immediately from any loop state with the fatal error string carrying the
error detail: exactly one further call attempt, no back-off sleep appended,
and the remaining retry budget (however large) is not consumed. -/
theorem fatal_error_immediate (oracle : Nat → CallResult)
    (maxRetries retries delay : Int) (calls : Nat) (sleeps : List Int) (e : String)
    (hlt : retries < maxRetries) (ho : oracle calls = CallResult.fatal e) :
    llmLoop oracle maxRetries retries delay calls sleeps =
      ⟨"Error: Could not get response from LLM. Details: " ++ e, calls + 1, sleeps⟩ := by
  rw [llmLoop, dif_pos hlt]
  simp only [ho]

/-- Witness for `fatal_error_immediate` at a concrete oracle and state. -/
theorem fatal_error_immediate_witness :
    llmLoop (fun _ => CallResult.fatal "boom") 10 0 2 0 [] =
      ⟨"Error: Could not get response from LLM. Details: boom", 0 + 1, []⟩ :=
  fatal_error_immediate (fun _ => CallResult.fatal "boom") 10 0 2 0 [] "boom"
    (by decide) rfl

theorem toList_mk (l : List Char) : (String.mk l).toList = l := rfl

theorem fenceHere_cons_false (c : Char) (l : List Char) (h : c ≠ btk) :
    fenceHere (c :: l) = false := by
  have hb : (btk == c) = false := by
    simp only [beq_eq_false_iff_ne, ne_eq]
    exact fun hc => h hc.symm
  simp [fenceHere, tks, startsWithL, hb]

theorem findFence_append_of_no_btk (p : List Char) (hp : btk ∉ p) :
    ∀ l : List Char, findFence (p ++ l) = findFence l := by
  induction p with
  | nil => intro l; simp
  | cons c t ih =>
      intro l
      have hc : c ≠ btk := fun h => hp (h ▸ List.mem_cons_self c t)
      have ht : btk ∉ t := fun h => hp (List.mem_cons_of_mem c h)
      simp only [List.cons_append, findFence, fenceHere_cons_false c _ hc]
      simp only [Bool.false_eq_true, if_false]
      exact ih ht l

theorem fenceHere_open (t1 t2 t3 : Char) (r : List Char)
    (h1 : t1 = 's' ∨ t1 = 'S') (h2 : t2 = 'q' ∨ t2 = 'Q') (h3 : t3 = 'l' ∨ t3 = 'L') :
    fenceHere (btk :: btk :: btk :: t1 :: t2 :: t3 :: r) = true := by
  rcases h1 with rfl | rfl <;> rcases h2 with rfl | rfl <;> rcases h3 with rfl | rfl <;>
    simp [fenceHere, tks, startsWithL, sqlTagHere]

theorem findFence_cons_true (c : Char) (t : List Char) (h : fenceHere (c :: t) = true) :
    findFence (c :: t) = some ((c :: t).drop 6) := by
  simp only [findFence, h, if_true]

theorem tripleHere_cons_false (c : Char) (l : List Char) (h : c ≠ btk) :
    tripleHere (c :: l) = false := by
  have hb : (btk == c) = false := by
    simp only [beq_eq_false_iff_ne, ne_eq]
    exact fun hc => h hc.symm
  simp [tripleHere, tks, startsWithL, hb]

theorem takeToClose_append (inner : List Char) (r : List Char) (hin : btk ∉ inner) :
    takeToClose (inner ++ (tks ++ r)) = some inner := by
  induction inner with
  | nil =>
      simp only [List.nil_append]
      have : tripleHere (tks ++ r) = true := by simp [tripleHere, tks, startsWithL]
      simp only [tks, List.cons_append, List.nil_append] at this ⊢
      simp only [takeToClose, this, if_true]
  | cons c t ih =>
      have hc : c ≠ btk := fun h => hin (h ▸ List.mem_cons_self c t)
      have ht : btk ∉ t := fun h => hin (List.mem_cons_of_mem c h)
      simp only [List.cons_append, takeToClose, tripleHere_cons_false c _ hc]
      simp only [Bool.false_eq_true, if_false, List.append_eq]
      rw [ih ht]
      rfl

/-- Claim C3 as stated is false on the code: the claim calls the `sql`
language tag optional, but the pattern of line 291 requires it.  A fenced
block with no tag is not matched, and the fallback returns the whole trimmed
text (still carrying its backticks), not the inner content. -/
theorem sql_extraction_counterexample :
    extractSql "```\nSELECT 1\n```" = "```\nSELECT 1\n```" ∧
    extractSql "```\nSELECT 1\n```" ≠ "SELECT 1" := by
  constructor
  · decide
  · decide

/-- Claim C3 (amended: the opening marker must carry the case-insensitive
`sql` tag — it is required, not optional): for every model text consisting of
backtick-free prose, then a three-backtick marker with the (case-insensitive)
`sql` tag, then backtick-free content, then a closing three-backtick marker,
then arbitrary trailing text, extraction returns exactly the trimmed content
of that (first) block; and for every model text in which the pattern finds no
match — no opening marker at all, or no closing marker after the first one —
extraction returns the whole text trimmed. -/
theorem sql_extraction_amended :
    (∀ (p1 inner p2 : List Char) (t1 t2 t3 : Char),
       btk ∉ p1 → btk ∉ inner →
       (t1 = 's' ∨ t1 = 'S') → (t2 = 'q' ∨ t2 = 'Q') → (t3 = 'l' ∨ t3 = 'L') →
       extractSql (String.mk (p1 ++ [btk, btk, btk, t1, t2, t3] ++ inner ++
           [btk, btk, btk] ++ p2)) = String.mk (pyStripL inner)) ∧
    (∀ s : String, findFence s.toList = none → extractSql s = pyStripS s) ∧
    (∀ (s : String) (r : List Char), findFence s.toList = some r →
       takeToClose r = none → extractSql s = pyStripS s) := by
  refine ⟨?_, ?_, ?_⟩
  · intro p1 inner p2 t1 t2 t3 hp1 hin h1 h2 h3
    have hassoc : p1 ++ [btk, btk, btk, t1, t2, t3] ++ inner ++ [btk, btk, btk] ++ p2
        = p1 ++ ([btk, btk, btk, t1, t2, t3] ++ (inner ++ ([btk, btk, btk] ++ p2))) := by
      simp [List.append_assoc]
    have hf : findFence (p1 ++ [btk, btk, btk, t1, t2, t3] ++ inner ++
        [btk, btk, btk] ++ p2) = some (inner ++ ([btk, btk, btk] ++ p2)) := by
      rw [hassoc, findFence_append_of_no_btk p1 hp1]
      have hcons : [btk, btk, btk, t1, t2, t3] ++ (inner ++ ([btk, btk, btk] ++ p2))
          = btk :: btk :: btk :: t1 :: t2 :: t3 :: (inner ++ ([btk, btk, btk] ++ p2)) := by
        simp
      rw [hcons, findFence_cons_true _ _ (fenceHere_open t1 t2 t3 _ h1 h2 h3)]
      simp
    have hc : takeToClose (inner ++ ([btk, btk, btk] ++ p2)) = some inner := by
      have h := takeToClose_append inner p2 hin
      simpa [tks] using h
    simp only [extractSql, toList_mk, hf, hc]
  · intro s hs
    simp only [extractSql, hs]
    rfl
  · intro s r h1 h2
    simp only [extractSql, h1, h2]
    rfl

/-- Witness for `sql_extraction_amended` at a concrete fenced model text. -/
theorem sql_extraction_amended_witness :
    extractSql (String.mk (("answer: ".toList) ++ [btk, btk, btk, 's', 'q', 'l'] ++
        (" SELECT 1 ".toList) ++ [btk, btk, btk] ++ (" done".toList)))
      = String.mk (pyStripL (" SELECT 1 ".toList)) :=
  sql_extraction_amended.1 ("answer: ".toList) (" SELECT 1 ".toList) (" done".toList)
    's' 'q' 'l' (by decide) (by decide) (Or.inl rfl) (Or.inl rfl) (Or.inl rfl)

theorem startsWithL_append_self (n : List Char) :
    ∀ r : List Char, startsWithL n (n ++ r) = true := by
  induction n with
  | nil => intro r; rfl
  | cons c t ih => intro r; simp [startsWithL, ih r]

theorem containsSubL_of_startsWith (n h : List Char) (hs : startsWithL n h = true) :
    containsSubL n h = true := by
  cases h with
  | nil => simpa [containsSubL] using hs
  | cons c t => simp [containsSubL, hs]

theorem toList_append (a b : String) : (a ++ b).toList = a.toList ++ b.toList :=
  String.data_append a b

theorem execError_contains_marker (e : String) :
    containsSubS execErrorMarker ("Error executing SQL query: " ++ e) = true := by
  unfold containsSubS
  apply containsSubL_of_startsWith
  rw [toList_append]
  have h2 : ("Error executing SQL query: ").toList = execErrorMarker.toList ++ ": ".toList := by
    decide
  rw [h2, List.append_assoc]
  exact startsWithL_append_self _ _

theorem runHandler_empty (t : String) (store : String → StoreStep) :
    runHandler "" t store = ⟨HandlerResult.warnNoQuestion, false, none⟩ := by
  simp [runHandler]

theorem runHandler_sentinel (q t : String) (store : String → StoreStep) (hq : q ≠ "")
    (hs : containsSubS sentinelMarker (extractSql t) = true) :
    runHandler q t store = ⟨HandlerResult.upstreamError (extractSql t), true, none⟩ := by
  simp [runHandler, hq, hs]

theorem runHandler_invalid (q t : String) (store : String → StoreStep) (hq : q ≠ "")
    (hs : containsSubS sentinelMarker (extractSql t) = false)
    (hv : validStart (extractSql t) = false) :
    runHandler q t store = ⟨HandlerResult.warnInvalidStatement, true, none⟩ := by
  simp [runHandler, hq, hs, hv]

theorem runHandler_exec (q t : String) (store : String → StoreStep) (hq : q ≠ "")
    (hs : containsSubS sentinelMarker (extractSql t) = false)
    (hv : validStart (extractSql t) = true) :
    (runHandler q t store).executedSql = some (extractSql t) ∧
    (runHandler q t store).llmCalled = true := by
  unfold runHandler
  rw [if_neg hq]
  simp only [hs, hv, Bool.false_eq_true, Bool.true_eq_false, if_false]
  split
  · exact ⟨rfl, rfl⟩
  · split
    · split
      · exact ⟨rfl, rfl⟩
      · exact ⟨rfl, rfl⟩
    · exact ⟨rfl, rfl⟩

theorem runHandler_llmCalled (q t : String) (store : String → StoreStep) (hq : q ≠ "") :
    (runHandler q t store).llmCalled = true := by
  unfold runHandler
  rw [if_neg hq]
  dsimp only
  split
  · rfl
  · split
    · rfl
    · split
      · rfl
      · split
        · split
          · rfl
          · rfl
        · rfl

/-- Claim C1 as stated is false on the code: a candidate that fails the
type-prefix check but contains the upstream-failure marker (line 298 runs
before the prefix check of lines 300-303) is surfaced as an error, not as the
refine-your-question guidance. It is still never executed. -/
theorem sql_gate_counterexample :
    validStart (extractSql "Error: Could not get response from LLM. Details: boom") = false ∧
    (runHandler "q" "Error: Could not get response from LLM. Details: boom" emptyStore).result
      ≠ HandlerResult.warnInvalidStatement ∧
    (runHandler "q" "Error: Could not get response from LLM. Details: boom"
      emptyStore).executedSql = none := by
  refine ⟨by decide, by decide, by decide⟩

/-- Claim C1 (amended: candidates failing the prefix check that contain the
upstream-failure marker yield the upstream error instead of the guidance
message): the extracted candidate is never passed to `execute_sql_query`
unless it passes the statement-type prefix check; every candidate failing the
check yields either the guidance warning or (when it contains the marker) the
upstream error, with no execution; and when additionally free of the marker,
exactly the guidance warning. -/
theorem sql_gate_amended (q t : String) (store : String → StoreStep) :
    ((runHandler q t store).executedSql ≠ none →
       validStart (extractSql t) = true ∧
       (runHandler q t store).executedSql = some (extractSql t)) ∧
    (q ≠ "" → validStart (extractSql t) = false →
       (runHandler q t store).executedSql = none ∧
       ((runHandler q t store).result = HandlerResult.warnInvalidStatement ∨
        (runHandler q t store).result = HandlerResult.upstreamError (extractSql t))) ∧
    (q ≠ "" → validStart (extractSql t) = false →
       containsSubS sentinelMarker (extractSql t) = false →
       (runHandler q t store).result = HandlerResult.warnInvalidStatement) := by
  refine ⟨?_, ?_, ?_⟩
  · intro hne
    by_cases hq : q = ""
    · subst hq
      exact absurd (by rw [runHandler_empty]) hne
    by_cases hsent : containsSubS sentinelMarker (extractSql t) = true
    · exact absurd (by rw [runHandler_sentinel q t store hq hsent]) hne
    have hs' : containsSubS sentinelMarker (extractSql t) = false := by
      simpa using hsent
    by_cases hv : validStart (extractSql t) = true
    · exact ⟨hv, (runHandler_exec q t store hq hs' hv).1⟩
    · have hv' : validStart (extractSql t) = false := by simpa using hv
      exact absurd (by rw [runHandler_invalid q t store hq hs' hv']) hne
  · intro hq hv
    by_cases hsent : containsSubS sentinelMarker (extractSql t) = true
    · rw [runHandler_sentinel q t store hq hsent]
      exact ⟨rfl, Or.inr rfl⟩
    · have hs' : containsSubS sentinelMarker (extractSql t) = false := by
        simpa using hsent
      rw [runHandler_invalid q t store hq hs' hv]
      exact ⟨rfl, Or.inl rfl⟩
  · intro hq hv hs
    rw [runHandler_invalid q t store hq hs hv]

/-- Witness for `sql_gate_amended` at a concrete prefix-failing candidate. -/
theorem sql_gate_amended_witness :
    (runHandler "q" "hello" emptyStore).result = HandlerResult.warnInvalidStatement :=
  (sql_gate_amended "q" "hello" emptyStore).2.2 (by decide) (by decide) (by decide)

/-- Claim C4 as stated is false on the code: `if ask_ai_button and
ai_question:` (line 286) tests Python truthiness, so a whitespace-only
question is truthy and proceeds to the model call (and on through the whole
flow), instead of getting the validation warning. -/
theorem question_gate_counterexample :
    pyStripS " " = "" ∧
    (runHandler " " "SELECT 1" emptyStore).llmCalled = true ∧
    (runHandler " " "SELECT 1" emptyStore).executedSql = some "SELECT 1" ∧
    (runHandler " " "SELECT 1" emptyStore).result ≠ HandlerResult.warnNoQuestion := by
  refine ⟨by decide, by decide, by decide, by decide⟩

/-- Claim C4 (amended: only the empty question is rejected — whitespace-only
questions are not): submitting with an empty question yields the validation
warning with no call to `get_llm_response` and no execution, and every
non-empty question (whitespace-only included) proceeds to the model call. -/
theorem question_gate_amended (q t : String) (store : String → StoreStep) :
    (q = "" → runHandler q t store = ⟨HandlerResult.warnNoQuestion, false, none⟩) ∧
    (q ≠ "" → (runHandler q t store).llmCalled = true) := by
  constructor
  · intro hq
    subst hq
    exact runHandler_empty t store
  · intro hq
    exact runHandler_llmCalled q t store hq

/-- Witness for `question_gate_amended` at the empty and a whitespace-only
question. -/
theorem question_gate_amended_witness :
    runHandler "" "SELECT 1" emptyStore = ⟨HandlerResult.warnNoQuestion, false, none⟩ ∧
    (runHandler " " "SELECT 1" emptyStore).llmCalled = true :=
  ⟨(question_gate_amended "" "SELECT 1" emptyStore).1 rfl,
   (question_gate_amended " " "SELECT 1" emptyStore).2 (by decide)⟩

/-- Claim C7 as stated is false on the code: the sentinel test of line 298
runs on the candidate extracted from the response, not on the response
itself, so a response equal to the failure sentinel whose detail part embeds
an sql-tagged fenced block has that block extracted, mistaken for SQL, and
executed. -/
theorem sentinel_forwarding_counterexample :
    extractSql
        "Error: Could not get response from LLM after multiple retries. Details: ```sql SELECT 1 ```"
      = "SELECT 1" ∧
    (runHandler "q"
        "Error: Could not get response from LLM after multiple retries. Details: ```sql SELECT 1 ```"
        emptyStore).executedSql = some "SELECT 1" ∧
    (runHandler "q"
        "Error: Could not get response from LLM after multiple retries. Details: ```sql SELECT 1 ```"
        emptyStore).result
      ≠ HandlerResult.upstreamError
          "Error: Could not get response from LLM after multiple retries. Details: ```sql SELECT 1 ```" := by
  refine ⟨by decide, by decide, by decide⟩

/-- Claim C7 (amended: the sentinel check applies to the extracted
candidate): whenever the candidate extracted from the model response still
contains the failure-sentinel marker, the flow surfaces it as an upstream
error and never calls `execute_sql_query`. -/
theorem sentinel_forwarding_amended (q t : String) (store : String → StoreStep)
    (hq : q ≠ "") (hs : containsSubS sentinelMarker (extractSql t) = true) :
    (runHandler q t store).result = HandlerResult.upstreamError (extractSql t) ∧
    (runHandler q t store).executedSql = none := by
  rw [runHandler_sentinel q t store hq hs]
  exact ⟨rfl, rfl⟩

/-- Witness for `sentinel_forwarding_amended` at a concrete fatal-error
sentinel. -/
theorem sentinel_forwarding_amended_witness :
    (runHandler "q" "Error: Could not get response from LLM. Details: x" emptyStore).result
      = HandlerResult.upstreamError
          (extractSql "Error: Could not get response from LLM. Details: x") ∧
    (runHandler "q" "Error: Could not get response from LLM. Details: x"
      emptyStore).executedSql = none :=
  sentinel_forwarding_amended "q" "Error: Could not get response from LLM. Details: x"
    emptyStore (by decide) (by decide)

/-- Claim C10: with `max_retries ≤ 0`, the retry loop body never runs, no
completion call is made (0 attempts, no sleeps), and the fall-through string
of line 173 is returned; that string does not contain the substring checked
on line 298 and does not start with a valid statement keyword, so the flow
surfaces it as the refine-your-question guidance rather than as an upstream
error. -/
theorem zero_budget_fallback (oracle : Nat → CallResult) (m dly : Int) (hm : m ≤ 0)
    (q : String) (hq : q ≠ "") (store : String → StoreStep) :
    get_llm_response oracle m dly = ⟨"Error: Failed to get LLM response.", 0, []⟩ ∧
    containsSubS sentinelMarker "Error: Failed to get LLM response." = false ∧
    validStart "Error: Failed to get LLM response." = false ∧
    runHandler q "Error: Failed to get LLM response." store =
      ⟨HandlerResult.warnInvalidStatement, true, none⟩ := by
  refine ⟨?_, by decide, by decide, ?_⟩
  · rw [get_llm_response, llmLoop, dif_neg (by omega : ¬(0 : Int) < m)]
  · exact runHandler_invalid q "Error: Failed to get LLM response." store hq
      (by decide) (by decide)

/-- Witness for `zero_budget_fallback` at a concrete zero budget. -/
theorem zero_budget_fallback_witness :
    get_llm_response (fun _ => CallResult.success "SELECT 1") 0 2 =
      ⟨"Error: Failed to get LLM response.", 0, []⟩ ∧
    runHandler "hi" "Error: Failed to get LLM response." emptyStore =
      ⟨HandlerResult.warnInvalidStatement, true, none⟩ :=
  ⟨(zero_budget_fallback (fun _ => CallResult.success "SELECT 1") 0 2 (by decide)
      "hi" (by decide) emptyStore).1,
   (zero_budget_fallback (fun _ => CallResult.success "SELECT 1") 0 2 (by decide)
      "hi" (by decide) emptyStore).2.2.2⟩

/-- Claim C5 as stated is false on the code in two ways: the test
`"Error executing SQL query" in str(data)` of line 308 runs before any
shaping, so a row set one of whose values contains that marker substring is
misreported as an execution error and the shaping rules (which would give a
scalar here) are never applied to it; and the canonical-header rule is not
total — a statement whose lowered form starts with `select * from employee`
but fetches rows that are not 9 wide (e.g. a self-join) makes
`pd.DataFrame(data, columns=...)` on line 321 raise an uncaught
`ValueError`, crashing the flow instead of producing a table. -/
theorem shaping_rules_counterexample :
    shapeResult [[Val.strV "Error executing SQL query: x"]] "SELECT NAME FROM EMPLOYEE"
      = ShapeOutcome.shaped (Presentable.scalar (Val.strV "Error executing SQL query: x")) ∧
    (runHandler "q" "SELECT NAME FROM EMPLOYEE" markerRowStore).result
      = HandlerResult.execErrorShown "[('Error executing SQL query: x',)]" ∧
    (runHandler "q" "SELECT NAME FROM EMPLOYEE" markerRowStore).result
      ≠ HandlerResult.answer (Presentable.scalar (Val.strV "Error executing SQL query: x")) ∧
    shapeResult [(List.range 18).map (fun i => Val.intV (i : Int))]
        "SELECT * FROM EMPLOYEE A JOIN EMPLOYEE B"
      = ShapeOutcome.raisedValueError 9 18 ∧
    (runHandler "q" "SELECT * FROM EMPLOYEE A JOIN EMPLOYEE B" joinStore).result
      = HandlerResult.uncaughtValueError 9 18 := by
  refine ⟨by decide, by decide, by decide, by decide, by decide⟩

/-- Claim C5 (amended: restricted to row sets whose Python string form does
not contain the execution-error marker — the others are misreported as
execution errors — and, in the canonical-header case, to 9-wide rows — a
`select * from employee`-prefixed statement fetching rows of another width
raises an uncaught pandas `ValueError` that crashes the flow): the shaping
rules apply in the fixed order — empty row set gives the "no data" marker;
exactly one row of one value gives the scalar presentation; otherwise a
statement that case-insensitively starts with `select * from employee` gives
a table with the 9 canonical headers when the rows are 9 wide and the
`ValueError` otherwise; otherwise a table with headers `Column_1, Column_2,
...` sized to the first row's width — and the flow hands such row sets to
exactly this shaper, surfacing its presentable or propagating its raise. -/
theorem shaping_rules_amended :
    (∀ sql, shapeResult [] sql = ShapeOutcome.shaped Presentable.noData) ∧
    (∀ (v : Val) (sql : String),
       shapeResult [[v]] sql = ShapeOutcome.shaped (Presentable.scalar v)) ∧
    (∀ (first : List Val) (rest : List (List Val)) (sql : String),
       (rest ≠ [] ∨ first.length ≠ 1) →
       startsWithStr "select * from employee" (lowerS sql) = true →
       first.length = 9 →
       shapeResult (first :: rest) sql =
         ShapeOutcome.shaped (Presentable.table canonicalColumns (first :: rest))) ∧
    (∀ (first : List Val) (rest : List (List Val)) (sql : String),
       (rest ≠ [] ∨ first.length ≠ 1) →
       startsWithStr "select * from employee" (lowerS sql) = true →
       first.length ≠ 9 →
       shapeResult (first :: rest) sql = ShapeOutcome.raisedValueError 9 first.length) ∧
    (∀ (first : List Val) (rest : List (List Val)) (sql : String),
       (rest ≠ [] ∨ first.length ≠ 1) →
       startsWithStr "select * from employee" (lowerS sql) = false →
       shapeResult (first :: rest) sql =
         ShapeOutcome.shaped (Presentable.table (synthHeaders first.length) (first :: rest))) ∧
    canonicalColumns.length = 9 ∧
    (∀ (q t : String) (store : String → StoreStep) (rs : List (List Val)) (p : Presentable),
       q ≠ "" →
       containsSubS sentinelMarker (extractSql t) = false →
       validStart (extractSql t) = true →
       store (extractSql t) = StoreStep.ok rs →
       containsSubS execErrorMarker (pyReprRows rs) = false →
       shapeResult rs (extractSql t) = ShapeOutcome.shaped p →
       (runHandler q t store).result = HandlerResult.answer p) ∧
    (∀ (q t : String) (store : String → StoreStep) (rs : List (List Val)) (n w : Nat),
       q ≠ "" →
       containsSubS sentinelMarker (extractSql t) = false →
       validStart (extractSql t) = true →
       store (extractSql t) = StoreStep.ok rs →
       containsSubS execErrorMarker (pyReprRows rs) = false →
       shapeResult rs (extractSql t) = ShapeOutcome.raisedValueError n w →
       (runHandler q t store).result = HandlerResult.uncaughtValueError n w) := by
  have hcc : canonicalColumns.length = 9 := rfl
  refine ⟨fun sql => rfl, fun v sql => rfl, ?_, ?_, ?_, rfl, ?_, ?_⟩
  · intro first rest sql hne hsel hw
    have hlen : first.length = canonicalColumns.length := by rw [hw, hcc]
    rcases rest with _ | ⟨r, rs2⟩
    · rcases first with _ | ⟨a, f2⟩
      · simp at hw
      · rcases f2 with _ | ⟨b, f3⟩
        · simp at hne
        · simp [shapeResult, hsel, hlen]
    · simp [shapeResult, hsel, hlen]
  · intro first rest sql hne hsel hw
    rcases rest with _ | ⟨r, rs2⟩
    · rcases first with _ | ⟨a, f2⟩
      · simp [shapeResult, hsel, hcc, hw]
      · rcases f2 with _ | ⟨b, f3⟩
        · simp at hne
        · simp only [List.length_cons] at hw
          simp [shapeResult, hsel, hcc]
          omega
    · simp [shapeResult, hsel, hcc, hw]
  · intro first rest sql hne hsel
    rcases rest with _ | ⟨r, rs2⟩
    · rcases first with _ | ⟨a, f2⟩
      · simp [shapeResult, hsel]
      · rcases f2 with _ | ⟨b, f3⟩
        · simp at hne
        · simp [shapeResult, hsel]
    · simp [shapeResult, hsel]
  · intro q t store rs p hq hs hv hstore hrep hshape
    unfold runHandler
    rw [if_neg hq]
    simp only [hs, hv, Bool.false_eq_true, Bool.true_eq_false, if_false]
    have hdata : (runQueryOnConn (extractSql t) store).data = ExecData.rows rs := by
      simp [runQueryOnConn, hstore]
    simp only [hdata, dataStr, hrep]
    simp only [hshape, Bool.false_eq_true, if_false]
  · intro q t store rs n w hq hs hv hstore hrep hshape
    unfold runHandler
    rw [if_neg hq]
    simp only [hs, hv, Bool.false_eq_true, Bool.true_eq_false, if_false]
    have hdata : (runQueryOnConn (extractSql t) store).data = ExecData.rows rs := by
      simp [runQueryOnConn, hstore]
    simp only [hdata, dataStr, hrep]
    simp only [hshape, Bool.false_eq_true, if_false]

/-- Witness for `shaping_rules_amended`: the synthesized two-column header
case, the shaped flow clause, and the raising flow clause, at concrete
inputs. -/
theorem shaping_rules_amended_witness :
    shapeResult [[Val.intV 5, Val.strV "HR"]] "SELECT COUNT(*), DESIGNATION FROM EMPLOYEE"
      = ShapeOutcome.shaped (Presentable.table
          (synthHeaders ([Val.intV 5, Val.strV "HR"] : List Val).length)
          [[Val.intV 5, Val.strV "HR"]]) ∧
    (runHandler "q" "SELECT COUNT(*) FROM EMPLOYEE" emptyStore).result
      = HandlerResult.answer Presentable.noData ∧
    (runHandler "q" "SELECT * FROM EMPLOYEE A JOIN EMPLOYEE B" joinStore).result
      = HandlerResult.uncaughtValueError 9 18 :=
  ⟨shaping_rules_amended.2.2.2.2.1 [Val.intV 5, Val.strV "HR"] []
      "SELECT COUNT(*), DESIGNATION FROM EMPLOYEE" (Or.inr (by decide)) (by decide),
   shaping_rules_amended.2.2.2.2.2.2.1 "q" "SELECT COUNT(*) FROM EMPLOYEE" emptyStore []
      Presentable.noData (by decide) (by decide) (by decide) rfl (by decide) (by decide),
   shaping_rules_amended.2.2.2.2.2.2.2 "q" "SELECT * FROM EMPLOYEE A JOIN EMPLOYEE B"
      joinStore [(List.range 18).map (fun i => Val.intV (i : Int))] 9 18
      (by decide) (by decide) (by decide) rfl (by decide) (by decide)⟩

theorem runQuery_boundary (sql : String) (store : String → StoreStep) :
    (runQueryOnConn sql store).connClosed = true ∧
    ((∃ rows, store sql = StoreStep.ok rows ∧
        (runQueryOnConn sql store).data = ExecData.rows rows) ∨
     (∃ e, store sql = StoreStep.sqliteError e ∧
        (runQueryOnConn sql store).data =
          ExecData.errorStr ("Error executing SQL query: " ++ e) ∧
        containsSubS execErrorMarker ("Error executing SQL query: " ++ e) = true)) := by
  cases h : store sql with
  | ok rows =>
      exact ⟨by simp [runQueryOnConn, h],
        Or.inl ⟨rows, rfl, by simp [runQueryOnConn, h]⟩⟩
  | sqliteError e =>
      exact ⟨by simp [runQueryOnConn, h],
        Or.inr ⟨e, rfl, by simp [runQueryOnConn, h], execError_contains_marker e⟩⟩

/-- Claim C6 as stated is false on the code: `conn = sqlite3.connect(db)`
(line 111) runs before the `try`/`finally`, so for a database path that
cannot be opened the raised `sqlite3.Error` escapes the function — no error
value is returned and no connection is closed. -/
theorem exec_boundary_counterexample :
    execute_sql_query "SELECT 1" (ConnectResult.connectError "unable to open database file")
      = SqlExecResult.raisedPastBoundary "unable to open database file" ∧
    execute_sql_query "SELECT 1" (ConnectResult.connectError "unable to open database file")
      ≠ SqlExecResult.returned ⟨ExecData.rows [], true⟩ ∧
    execute_sql_query "SELECT 1" (ConnectResult.connectError "unable to open database file")
      ≠ SqlExecResult.returned ⟨ExecData.errorStr
          "Error executing SQL query: unable to open database file", true⟩ := by
  refine ⟨rfl, by decide, by decide⟩

/-- Claim C6 (amended: the connect and cursor calls of lines 111-112 sit
outside the `try`/`finally`, so they are not covered by the claimed
boundary): whenever the database path opens, `execute_sql_query` returns —
the fetched rows, or on any store-level failure the error value carrying the
underlying message (and the marker substring) — never raising, with the
opened connection closed on both exit paths; whenever the connect itself
fails, the exception propagates past the function's boundary and there is no
connection to close. -/
theorem exec_error_boundary_amended (sql : String) (db : ConnectResult) :
    (∀ store, db = ConnectResult.conn store →
       execute_sql_query sql db = SqlExecResult.returned (runQueryOnConn sql store) ∧
       (runQueryOnConn sql store).connClosed = true ∧
       ((∃ rows, store sql = StoreStep.ok rows ∧
           (runQueryOnConn sql store).data = ExecData.rows rows) ∨
        (∃ e, store sql = StoreStep.sqliteError e ∧
           (runQueryOnConn sql store).data =
             ExecData.errorStr ("Error executing SQL query: " ++ e) ∧
           containsSubS execErrorMarker ("Error executing SQL query: " ++ e) = true))) ∧
    (∀ e, db = ConnectResult.connectError e →
       execute_sql_query sql db = SqlExecResult.raisedPastBoundary e) := by
  constructor
  · intro store hdb
    subst hdb
    exact ⟨rfl, (runQuery_boundary sql store).1, (runQuery_boundary sql store).2⟩
  · intro e hdb
    subst hdb
    rfl

/-- Witness for `exec_error_boundary_amended`: a connected empty store and a
failing connect, at concrete inputs. -/
theorem exec_error_boundary_amended_witness :
    execute_sql_query "SELECT 1" (ConnectResult.conn emptyStore)
      = SqlExecResult.returned (runQueryOnConn "SELECT 1" emptyStore) ∧
    (runQueryOnConn "SELECT 1" emptyStore).connClosed = true ∧
    execute_sql_query "DELETE FROM EMPLOYEE" (ConnectResult.connectError "no such file")
      = SqlExecResult.raisedPastBoundary "no such file" :=
  ⟨((exec_error_boundary_amended "SELECT 1" (ConnectResult.conn emptyStore)).1
      emptyStore rfl).1,
   ((exec_error_boundary_amended "SELECT 1" (ConnectResult.conn emptyStore)).1
      emptyStore rfl).2.1,
   (exec_error_boundary_amended "DELETE FROM EMPLOYEE"
      (ConnectResult.connectError "no such file")).2 "no such file" rfl⟩

/-- Claim C9: deleting by a name that matches no row of the table returns
`False` together with the not-found warning naming that value — an outcome
distinct from both the success return and the store-error display — and the
table is left unchanged. -/
theorem delete_not_found (table : List EmployeeRow) (nm : String)
    (h : ∀ r ∈ table, r.name ≠ nm) :
    delete_employee table none (some nm) =
      (table, DeleteReport.notFound ("No employee found with Name '" ++ nm ++ "'.")) ∧
    DeleteReport.notFound ("No employee found with Name '" ++ nm ++ "'.")
      ≠ DeleteReport.success ∧
    (∀ e, DeleteReport.notFound ("No employee found with Name '" ++ nm ++ "'.")
      ≠ DeleteReport.storeError e) := by
  refine ⟨?_, by simp, by simp⟩
  unfold delete_employee
  have hfil : table.filter (fun r => r.name == nm) = [] := by
    rw [List.filter_eq_nil_iff]
    intro a ha
    simp [h a ha]
  have hkeep : table.filter (fun r => !(r.name == nm)) = table := by
    rw [List.filter_eq_self]
    intro a ha
    simp [h a ha]
  simp [hfil, hkeep]

/-- Witness for `delete_not_found` at a concrete one-row table. -/
theorem delete_not_found_witness :
    delete_employee [⟨1, "Alice", 50000, 30, "Female", "Dev", 40, 100, 0⟩] none (some "Bob") =
      ([⟨1, "Alice", 50000, 30, "Female", "Dev", 40, 100, 0⟩],
        DeleteReport.notFound ("No employee found with Name '" ++ "Bob" ++ "'.")) :=
  (delete_not_found [⟨1, "Alice", 50000, 30, "Female", "Dev", 40, 100, 0⟩] "Bob"
    (by decide)).1
